import Mathlib

/-!
Verification development for the MegaETH realtime client
(`src/client/megaeth.ts`): the HTTP JSON-RPC invoker (`callRPC`), the
WebSocket connection manager (`WebSocketManager`) and the subscription
registry of `MegaETHClient` (`subscribe`, `unsubscribe`, `resubscribeAll`,
`handleWebSocketMessage`, `setSubscriptionCallback`).

The embedding is shallow: each method becomes a pure Lean function over an
explicit state record.  JSON values that the client only passes through
(subscribe filter params, error `data`, RPC params) are modelled at scalar
granularity by the `Json` type below, since the client never inspects their
structure.  Callbacks are modelled as opaque identifiers (`Callback`): the
client only stores and selects them, never inspects them; `Callback.noop`
is the fresh `() => {}` closure that `subscribe` installs.
-/

/-- Opaque JSON value, at the granularity the client observes. -/
inductive Json where
  | null
  | jbool (b : Bool)
  | num (n : Int)
  | str (s : String)
deriving DecidableEq, Repr

/-- JavaScript truthiness on `Json` values (`undefined`/absence is handled
by `Option` at each use site). -/
def jsFalsy : Json → Bool
  | Json.null => true
  | Json.jbool b => !b
  | Json.num n => n == 0
  | Json.str s => s == ""

/-- `params[0] || dflt`: first element when present and truthy, else the
default (JavaScript `||` also replaces a falsy first element). -/
def headParamOr (params : List Json) (dflt : Json) : Json :=
  match params.head? with
  | some v => if jsFalsy v then dflt else v
  | none => dflt

/-- `a.includes(b)` on JavaScript strings: substring containment. -/
def strIncludes (s pat : String) : Bool :=
  decide (pat.toList <:+: s.toList)

/-- A stored delivery callback, as an opaque identifier.  `noop` is the
fresh `() => {}` that `subscribe` installs ("Will be set by caller"). -/
inductive Callback where
  | noop
  | user (n : Nat)
deriving DecidableEq, Repr

/-- One entry of the `subscriptions: Map<string, Subscription>` table:
server-assigned id, event type, original params, delivery callback. -/
structure Subscription where
  id : String
  eventType : String
  params : Json
  callback : Callback
deriving DecidableEq, Repr

/-- JavaScript `Map` as an insertion-ordered association list. -/
def getAssoc {α : Type} (m : List (String × α)) (k : String) : Option α :=
  (m.find? (fun e => e.1 == k)).map (fun e => e.2)

/-- `Map.set`: update in place when the key exists, else append. -/
def setAssoc {α : Type} (m : List (String × α)) (k : String) (v : α) :
    List (String × α) :=
  if m.any (fun e => e.1 == k) then
    m.map (fun e => if e.1 == k then (k, v) else e)
  else m ++ [(k, v)]

/-- `Map.delete`. -/
def delAssoc {α : Type} (m : List (String × α)) (k : String) :
    List (String × α) :=
  m.filter (fun e => e.1 != k)

/-- The configuration fields the client core reads (`Config`).
`wsConfigured` is whether `megaethWsUrl` is set (it decides whether a
`WebSocketManager` exists at all). -/
structure Config where
  wsConfigured : Bool
  megaethMaxSubscriptions : Option Nat
deriving DecidableEq, Repr

/-- `this.config.megaethMaxSubscriptions || 100`: the JavaScript `||`
falls back to 100 when the field is absent or `0`. -/
def effMax (cfg : Config) : Nat :=
  match cfg.megaethMaxSubscriptions with
  | some n => if n = 0 then 100 else n
  | none => 100

/-- A `messageHandler` closure left registered on the WebSocketManager by a
`subscribe` call: it captured the payload id, the freshly minted local
handle and the subscribe arguments.  `settled` records whether the promise
of that `subscribe` call has already been resolved or rejected (a promise
settles at most once; further `resolve`/`reject` are no-ops). -/
structure PendingSub where
  reqId : Nat
  localHandle : String
  eventType : String
  params : Json
  settled : Bool
deriving DecidableEq, Repr

/-- The mutable state of one `MegaETHClient`: the subscription table, the
monotonic request-id counter, and the subscribe message handlers currently
registered on the connection manager's event bus. -/
structure ClientState where
  subs : List (String × Subscription)
  pending : List PendingSub
  requestId : Nat
deriving DecidableEq, Repr

/-- A JSON-RPC frame sent over the WebSocket (`jsonrpc`/`id`/`method`/
`params`). -/
structure Payload where
  id : Nat
  method : String
  params : List Json
deriving DecidableEq, Repr

/-- Observable network activity of one client operation. -/
inductive NetEvent where
  | connectAttempt
  | send (p : Payload)
deriving DecidableEq, Repr

/-! ## HTTP RPC invoker: `callRPC` and its error classification -/

/-- Outcome of the HTTP round trip `this.httpClient.post("/", payload)`,
as the client observes it: a `result`, a `response.data.error` body
(message / code / data each possibly absent), or an axios-level throw. -/
inductive HttpOutcome where
  | ok (result : Json)
  | rpcError (message : Option String) (code : Option Json) (data : Option Json)
  | transportError (msg : String)
deriving DecidableEq, Repr

/-- What `callRPC` returns or throws.  The classified variants are the
`MegaETHError` subclasses; `transportErr` is a non-`MegaETHError` failure
rethrown with the `rpcMethod`/`rpcParams` annotation; `methodRequired` is
the `"RPC method is required"` guard throw. -/
inductive CallResult where
  | success (v : Json)
  | txExpired (txRef : Json)
  | miniBlockNotFound (blockRef : Json)
  | megaErr (message : String) (code : Json) (data : Option Json)
  | transportErr (msg : String) (rpcMethod : String) (rpcParams : List Json)
  | methodRequired
deriving DecidableEq, Repr

/-- The error branch of `callRPC` (megaeth.ts lines 322-334): apply the
`|| "Unknown RPC error"` / `|| "UNKNOWN"` fallbacks, then classify by
substring in priority order. -/
def classifyRpcError (params : List Json) (message : Option String)
    (code : Option Json) (data : Option Json) : CallResult :=
  let errorMessage :=
    match message with
    | some m => if m = "" then "Unknown RPC error" else m
    | none => "Unknown RPC error"
  let errorCode :=
    match code with
    | some c => if jsFalsy c then Json.str "UNKNOWN" else c
    | none => Json.str "UNKNOWN"
  if strIncludes errorMessage "realtime transaction expired" then
    CallResult.txExpired (headParamOr params (Json.str "unknown"))
  else if strIncludes errorMessage "mini block not found" then
    CallResult.miniBlockNotFound (headParamOr params (Json.num 0))
  else
    CallResult.megaErr errorMessage errorCode data

/-- `callRPC(method, params)` for a given HTTP outcome.  A classified
`MegaETHError` is rethrown as-is by the catch block; any other error is
annotated with `rpcMethod`/`rpcParams` and rethrown. -/
def callRPC (method : String) (params : List Json) (outcome : HttpOutcome) :
    CallResult :=
  if method = "" then CallResult.methodRequired
  else
    match outcome with
    | HttpOutcome.ok v => CallResult.success v
    | HttpOutcome.rpcError msg code data => classifyRpcError params msg code data
    | HttpOutcome.transportError m => CallResult.transportErr m method params

/-- The `method`/`params` diagnostic context attached to a `callRPC`
failure, when any: only the non-`MegaETHError` (transport) branch sets
`error.rpcMethod` / `error.rpcParams`. -/
def errorContext : CallResult → Option (String × List Json)
  | CallResult.transportErr _ m p => some (m, p)
  | _ => none

/-- Whether a `CallResult` is a failure (a throw). -/
def isFailure : CallResult → Bool
  | CallResult.success _ => false
  | _ => true

/-! ## WebSocketManager: connect coalescing and reconnection backoff -/

/-- The `WebSocketManager` fields the connect/reconnect logic reads:
whether `this.connection` exists and is `OPEN`, the `isConnecting` guard,
and the reconnect attempt counter. -/
structure WsState where
  connOpen : Bool
  isConnecting : Bool
  reconnectAttempts : Nat
deriving DecidableEq, Repr

/-- `maxReconnectAttempts = 5` (a fixed field of `WebSocketManager`). -/
def maxReconnectAttempts : Nat := 5

/-- `reconnectDelay = 1000` (a fixed field of `WebSocketManager`). -/
def reconnectDelay : Nat := 1000

/-- What one `connect()` invocation does on arrival. -/
inductive ConnectAction where
  | alreadyOpen
  | waitInflight
  | openSocket
deriving DecidableEq, Repr

/-- The branch taken by `connect()` (megaeth.ts lines 107-130): return if
the connection is open; wait on the in-flight attempt if `isConnecting`;
otherwise set `isConnecting` and construct a new socket. -/
def connectStep (ws : WsState) : WsState × ConnectAction :=
  if ws.connOpen then (ws, ConnectAction.alreadyOpen)
  else if ws.isConnecting then (ws, ConnectAction.waitInflight)
  else ({ ws with isConnecting := true }, ConnectAction.openSocket)

/-- `n` `connect()` calls arriving before the attempt settles; returns the
final state and how many underlying socket opens they caused. -/
def connectBurst (ws : WsState) : Nat → WsState × Nat
  | 0 => (ws, 0)
  | n + 1 =>
    let (ws1, a) := connectStep ws
    let (ws2, c) := connectBurst ws1 n
    (ws2, (if a = ConnectAction.openSocket then 1 else 0) + c)

/-- Settlement of the in-flight attempt: the `open` handler clears
`isConnecting`, zeroes the attempt counter and marks the socket open; the
`error` handler clears `isConnecting` with the socket still closed. -/
def attemptSettle (ws : WsState) (success : Bool) : WsState :=
  if success then
    { ws with connOpen := true, isConnecting := false, reconnectAttempts := 0 }
  else
    { ws with connOpen := false, isConnecting := false }

/-- What a caller waiting in `connect()`'s polling loop concludes from the
manager state: resolve when open, reject when the attempt is no longer in
flight and the socket is not open, keep waiting otherwise. -/
def waiterOutcome (ws : WsState) : Option Bool :=
  if ws.connOpen then some true
  else if ws.isConnecting then none
  else some false

/-- Result of one `handleReconnection()` call. -/
inductive ReconnectAction where
  | exhausted
  | scheduled (delayMs : Nat)
deriving DecidableEq, Repr

/-- `handleReconnection()` (megaeth.ts lines 197-214): emit the terminal
event when the counter has reached the maximum, else increment it and
schedule a retry after `reconnectDelay * 2 ^ (reconnectAttempts - 1)`. -/
def handleReconnection (ws : WsState) : WsState × ReconnectAction :=
  if ws.reconnectAttempts ≥ maxReconnectAttempts then
    (ws, ReconnectAction.exhausted)
  else
    let a := ws.reconnectAttempts + 1
    ({ ws with reconnectAttempts := a },
     ReconnectAction.scheduled (reconnectDelay * 2 ^ (a - 1)))

/-- The delays produced by `k` successive unexpected closes starting from
attempt counter `0` (each close runs `handleReconnection` once). -/
def reconnectDelaySeq (ws : WsState) : Nat → List Nat
  | 0 => []
  | k + 1 =>
    match handleReconnection ws with
    | (ws1, ReconnectAction.scheduled d) => d :: reconnectDelaySeq ws1 k
    | (_, ReconnectAction.exhausted) => []

/-! ## Subscription registry: subscribe / unsubscribe / resubscribe -/

/-- Result of the synchronous part of `subscribe` (up to sending the
frame): the three throw paths and the started-pending case. -/
inductive SubStartRes where
  | noWs
  | limitHit (limit : Nat)
  | connectFailed
  | started (reqId : Nat) (handle : String)
deriving DecidableEq, Repr

/-- `subscribe(eventType, params)` up to its `send` (megaeth.ts lines
361-408): throw if no `wsManager`; throw `SubscriptionLimitError` before
any network activity when the table has reached the maximum; `await
connectWebSocket()` (which may fail); then build the payload with a fresh
request id, register the `messageHandler` on the manager's event bus and
send the frame.  `freshHandle` is the `sub_${Date.now()}_${random}` string
minted by this call; `connectOk` is whether the awaited connect succeeds. -/
def subscribeStart (cfg : Config) (st : ClientState) (eventType : String)
    (params : Json) (freshHandle : String) (connectOk : Bool) :
    ClientState × SubStartRes × List NetEvent :=
  if !cfg.wsConfigured then (st, SubStartRes.noWs, [])
  else if st.subs.length ≥ effMax cfg then
    (st, SubStartRes.limitHit (effMax cfg), [])
  else if !connectOk then
    (st, SubStartRes.connectFailed, [NetEvent.connectAttempt])
  else
    let rid := st.requestId
    ({ st with
        requestId := rid + 1,
        pending := st.pending ++
          [{ reqId := rid, localHandle := freshHandle,
             eventType := eventType, params := params, settled := false }] },
     SubStartRes.started rid freshHandle,
     [NetEvent.connectAttempt,
      NetEvent.send { id := rid, method := "eth_subscribe",
                      params := [Json.str eventType, params] }])

/-- An inbound WebSocket response frame `{id, error?, result}` as the
subscribe `messageHandler`s see it. -/
structure WsMessage where
  id : Nat
  error : Option String
  result : String
deriving DecidableEq, Repr

/-- Delivery of a response frame to every registered `messageHandler`
(the manager's `emit("message", ...)`): each handler whose captured payload
id matches removes itself from the bus and, when the message carries no
error, stores `{id: message.result, eventType, params, callback: noop}`
under its local handle — whether or not its promise already settled. -/
def deliverResponse (st : ClientState) (msg : WsMessage) : ClientState :=
  let matched := st.pending.filter (fun p => p.reqId == msg.id)
  let rest := st.pending.filter (fun p => p.reqId != msg.id)
  let subs' := matched.foldl
    (fun s p =>
      if msg.error.isSome then s
      else
        setAssoc s p.localHandle
          { id := msg.result, eventType := p.eventType,
            params := p.params, callback := Callback.noop })
    st.subs
  { st with pending := rest, subs := subs' }

/-- The 10000 ms `setTimeout` of a pending `subscribe` firing: the promise
is rejected with `"Subscription timeout"` (a no-op when already settled),
but the `messageHandler` stays registered on the event bus.  Returns the
new state and whether a timeout rejection was actually delivered. -/
def timeoutFire (st : ClientState) (reqId : Nat) : ClientState × Bool :=
  let hit := st.pending.any (fun p => p.reqId == reqId && !p.settled)
  let pending' := st.pending.map
    (fun p => if p.reqId == reqId then { p with settled := true } else p)
  ({ st with pending := pending' }, hit)

/-- A `subscribe` call that runs to completion without interleaving: the
synchronous prefix, then the matching success response.  This is the
composition of `subscribeStart` and `deliverResponse` and is what
`resubscribeAll` awaits per entry. -/
def subscribeComplete (cfg : Config) (st : ClientState) (eventType : String)
    (params : Json) (freshHandle : String) (serverId : String) : ClientState :=
  match subscribeStart cfg st eventType params freshHandle true with
  | (st1, SubStartRes.started rid _, _) =>
    deliverResponse st1 { id := rid, error := none, result := serverId }
  | (st1, _, _) => st1

/-- `unsubscribe(subscriptionId)` (megaeth.ts lines 411-436): `false` when
the handle is unknown or no `wsManager` is configured; otherwise build the
`eth_unsubscribe` payload (consuming a request id), and on a successful
send delete the mapping and return `true`; when `send` throws, log and
return `false`.  `sendOk` is whether the socket accepts the frame. -/
def unsubscribe (cfg : Config) (st : ClientState) (handle : String)
    (sendOk : Bool) : ClientState × Bool × List NetEvent :=
  match getAssoc st.subs handle with
  | none => (st, false, [])
  | some sub =>
    if !cfg.wsConfigured then (st, false, [])
    else
      let rid := st.requestId
      let payload : Payload :=
        { id := rid, method := "eth_unsubscribe", params := [Json.str sub.id] }
      if sendOk then
        ({ st with requestId := rid + 1, subs := delAssoc st.subs handle },
         true, [NetEvent.send payload])
      else
        ({ st with requestId := rid + 1 }, false, [])

/-- `resubscribeAll()` (megaeth.ts lines 492-503): snapshot the table,
clear it, and for each snapshot entry await `subscribe(eventType, params)`
— failures are logged and skipped.  `inputs` supplies, per snapshot entry,
the fresh local handle minted by the inner `subscribe` and the server id
of its response (`none` models the inner call throwing, which the `catch`
swallows). -/
def resubscribeAll (cfg : Config) (st : ClientState)
    (inputs : List (String × Option String)) : ClientState :=
  let snapshot := st.subs
  let cleared := { st with subs := ([] : List (String × Subscription)) }
  (snapshot.zip inputs).foldl
    (fun s e =>
      match e.2.2 with
      | some serverId =>
        subscribeComplete cfg s e.1.2.eventType e.1.2.params e.2.1 serverId
      | none => s)
    cleared

/-- `handleWebSocketMessage` on an `eth_subscription` notification
(megaeth.ts lines 477-490): linear scan for the first table entry whose
server id matches; its callback receives the payload.  Returns the callback
invoked, if any. -/
def handleNotification (st : ClientState) (serverSubId : String) :
    Option Callback :=
  (st.subs.find? (fun e => e.2.id == serverSubId)).map (fun e => e.2.callback)

/-- `setSubscriptionCallback(subscriptionId, callback)`: replace the stored
callback when the handle exists, else no-op. -/
def setSubscriptionCallback (st : ClientState) (handle : String)
    (cb : Callback) : ClientState :=
  match getAssoc st.subs handle with
  | some sub =>
    { st with subs := setAssoc st.subs handle { sub with callback := cb } }
  | none => st

/-! ## Interleaving of client operations (request-id allocation) -/

/-- One client operation, with the environment inputs it consumes. -/
inductive ClientOp where
  | rpc (method : String) (params : List Json) (outcome : HttpOutcome)
  | subStart (eventType : String) (params : Json) (freshHandle : String)
      (connectOk : Bool)
  | unsub (handle : String) (sendOk : Bool)
  | deliver (msg : WsMessage)
  | timeout (reqId : Nat)
deriving DecidableEq, Repr

/-- The effect of one operation on the client state, together with the
request id the operation allocated (`this.requestId++`), if any.
`callRPC` allocates after its method guard; `subscribe` allocates when it
reaches the payload; `unsubscribe` allocates when the handle is known and
a manager exists (observable as the counter bump). -/
def clientStep (cfg : Config) (st : ClientState) (op : ClientOp) :
    ClientState × Option Nat :=
  match op with
  | ClientOp.rpc m _ _ =>
    if m = "" then (st, none)
    else ({ st with requestId := st.requestId + 1 }, some st.requestId)
  | ClientOp.subStart et p fh ok =>
    match subscribeStart cfg st et p fh ok with
    | (st1, SubStartRes.started rid _, _) => (st1, some rid)
    | (st1, _, _) => (st1, none)
  | ClientOp.unsub h s =>
    let r := unsubscribe cfg st h s
    (r.1, if r.1.requestId = st.requestId then none else some st.requestId)
  | ClientOp.deliver msg => (deliverResponse st msg, none)
  | ClientOp.timeout rid => ((timeoutFire st rid).1, none)

/-- Run a sequence of operations, collecting the allocated ids in order. -/
def runOps (cfg : Config) (st : ClientState) : List ClientOp → ClientState × List Nat
  | [] => (st, [])
  | op :: ops =>
    let r := clientStep cfg st op
    let rest := runOps cfg r.1 ops
    (rest.1, r.2.toList ++ rest.2)

/-- The `eth_unsubscribe` envelope built by `unsubscribe`. -/
def mkUnsubPayload (rid : Nat) (serverId : String) : Payload :=
  { id := rid, method := "eth_unsubscribe", params := [Json.str serverId] }

/-- Scenario for C1: a registry holding one subscription whose callback
was set by the caller (`setSubscriptionCallback`) to `Callback.user 7`. -/
def c1cfg : Config := { wsConfigured := true, megaethMaxSubscriptions := none }

def c1st0 : ClientState :=
  { subs := [("sub_old",
      { id := "srv1", eventType := "newHeads", params := Json.null,
        callback := Callback.user 7 })],
    pending := [], requestId := 5 }

/-- The state after the "reconnected" event runs `resubscribeAll`, the
inner `subscribe` minting local handle `"sub_new"` and the server granting
id `"srv2"`. -/
def c1st1 : ClientState := resubscribeAll c1cfg c1st0 [("sub_new", some "srv2")]

/-- Scenario for C2: one `subscribe` call (request id 1, minted handle
`"sub_A"`) whose response does not arrive before the timeout fires. -/
def c2cfg : Config := { wsConfigured := true, megaethMaxSubscriptions := none }

def c2s1 : ClientState :=
  (subscribeStart c2cfg { subs := [], pending := [], requestId := 1 }
    "newHeads" Json.null "sub_A" true).1

def c2s2 : ClientState := (timeoutFire c2s1 1).1

def c2s3 : ClientState := deliverResponse c2s2 { id := 1, error := none, result := "0xserver" }

def c5wSub : Subscription :=
  { id := "s", eventType := "e", params := Json.null, callback := Callback.noop }

def c5wCfg : Config := { wsConfigured := true, megaethMaxSubscriptions := some 1 }

def c5wSt : ClientState := { subs := [("h", c5wSub)], pending := [], requestId := 1 }

/-- Scenario for the C5 counterexample: `maxSubscriptions = 1`, two
`subscribe` calls pass the limit check while the table is still empty
(the check happens before the correlation wait), then both responses
arrive. -/
def c5cfg : Config := { wsConfigured := true, megaethMaxSubscriptions := some 1 }

def c5s1 : ClientState :=
  (subscribeStart c5cfg { subs := [], pending := [], requestId := 1 }
    "newHeads" Json.null "sub_a" true).1

def c5s2 : ClientState := (subscribeStart c5cfg c5s1 "logs" Json.null "sub_b" true).1

def c5s3 : ClientState := deliverResponse c5s2 { id := 1, error := none, result := "srv1" }

def c5s4 : ClientState := deliverResponse c5s3 { id := 2, error := none, result := "srv2" }

def c7wSub : Subscription :=
  { id := "sX", eventType := "e", params := Json.null, callback := Callback.noop }

def c7wCfg : Config := { wsConfigured := true, megaethMaxSubscriptions := none }

def c7wSt : ClientState := { subs := [("hX", c7wSub)], pending := [], requestId := 3 }

theorem subscribeStart_requestId (cfg : Config) (st : ClientState)
    (et : String) (p : Json) (fh : String) (ok : Bool) :
    (subscribeStart cfg st et p fh ok).1.requestId = st.requestId ∨
      (subscribeStart cfg st et p fh ok).1.requestId = st.requestId + 1 := by
  unfold subscribeStart
  split
  · exact Or.inl rfl
  · split
    · exact Or.inl rfl
    · split
      · exact Or.inl rfl
      · exact Or.inr rfl

theorem subscribeStart_started (cfg : Config) (st st1 : ClientState)
    (et : String) (p : Json) (fh : String) (ok : Bool) (rid : Nat) (hdl : String)
    (ev : List NetEvent)
    (hs : subscribeStart cfg st et p fh ok = (st1, SubStartRes.started rid hdl, ev)) :
    rid = st.requestId ∧ st1.requestId = st.requestId + 1 := by
  unfold subscribeStart at hs
  split at hs
  · simp at hs
  split at hs
  · simp at hs
  split at hs
  · simp at hs
  · rw [Prod.mk.injEq, Prod.mk.injEq] at hs
    obtain ⟨hA, hB, -⟩ := hs
    injection hB with h1 h2
    exact ⟨h1.symm, by rw [← hA]⟩

theorem unsubscribe_requestId (cfg : Config) (st : ClientState)
    (h : String) (s : Bool) :
    (unsubscribe cfg st h s).1.requestId = st.requestId ∨
      (unsubscribe cfg st h s).1.requestId = st.requestId + 1 := by
  unfold unsubscribe
  rcases hg : getAssoc st.subs h with _ | sub
  · exact Or.inl rfl
  · simp only []
    split
    · exact Or.inl rfl
    split
    · exact Or.inr rfl
    · exact Or.inr rfl

theorem clientStep_mono (cfg : Config) (st : ClientState) (op : ClientOp) :
    st.requestId ≤ (clientStep cfg st op).1.requestId := by
  cases op with
  | rpc m p o =>
    by_cases hm : m = "" <;> simp [clientStep, hm]
  | subStart et p fh ok =>
    rcases hs : subscribeStart cfg st et p fh ok with ⟨st1, res, ev⟩
    have h := subscribeStart_requestId cfg st et p fh ok
    rw [hs] at h
    simp only [clientStep, hs]
    cases res <;> simp at h ⊢ <;> omega
  | unsub h s =>
    have hu := unsubscribe_requestId cfg st h s
    simp only [clientStep]
    omega
  | deliver msg => simp [clientStep, deliverResponse]
  | timeout rid => simp [clientStep, timeoutFire]

theorem clientStep_alloc (cfg : Config) (st : ClientState) (op : ClientOp)
    (i : Nat) (ha : (clientStep cfg st op).2 = some i) :
    i = st.requestId ∧ st.requestId + 1 ≤ (clientStep cfg st op).1.requestId := by
  cases op with
  | rpc m p o =>
    by_cases hm : m = ""
    · simp_all [clientStep, hm]
    · simp_all [clientStep, hm]
  | subStart et p fh ok =>
    rcases hs : subscribeStart cfg st et p fh ok with ⟨st1, res, ev⟩
    simp only [clientStep, hs] at ha ⊢
    cases res with
    | started rid hdl =>
      simp at ha ⊢
      obtain ⟨h1, h2⟩ := subscribeStart_started cfg st st1 et p fh ok rid hdl ev hs
      omega
    | noWs => simp at ha
    | limitHit l => simp at ha
    | connectFailed => simp at ha
  | unsub h s =>
    have hu := unsubscribe_requestId cfg st h s
    simp only [clientStep] at ha ⊢
    split at ha
    · simp at ha
    · simp only [Option.some.injEq] at ha
      omega
  | deliver msg => simp [clientStep] at ha
  | timeout rid => simp [clientStep] at ha

theorem runOps_requestId_mono (cfg : Config) (ops : List ClientOp) :
    ∀ st : ClientState, st.requestId ≤ (runOps cfg st ops).1.requestId := by
  induction ops with
  | nil => intro st; simp [runOps]
  | cons op ops ih =>
    intro st
    simp only [runOps]
    exact le_trans (clientStep_mono cfg st op) (ih _)

theorem runOps_ids_lb (cfg : Config) (ops : List ClientOp) :
    ∀ st : ClientState, ∀ i ∈ (runOps cfg st ops).2, st.requestId ≤ i := by
  induction ops with
  | nil => intro st i hi; simp [runOps] at hi
  | cons op ops ih =>
    intro st i hi
    simp only [runOps, List.mem_append] at hi
    rcases hi with hi | hi
    · rcases ha : (clientStep cfg st op).2 with _ | j
      · rw [ha] at hi; simp at hi
      · rw [ha] at hi; simp at hi
        have := (clientStep_alloc cfg st op j ha).1
        omega
    · exact le_trans (clientStep_mono cfg st op) (ih _ i hi)

theorem runOps_ids_pairwise (cfg : Config) (ops : List ClientOp) :
    ∀ st : ClientState,
      List.Pairwise (fun a b => a < b) (runOps cfg st ops).2 := by
  induction ops with
  | nil => intro st; simp [runOps]
  | cons op ops ih =>
    intro st
    simp only [runOps]
    rw [List.pairwise_append]
    refine ⟨?_, ih _, ?_⟩
    · rcases (clientStep cfg st op).2 with _ | j <;> simp
    · intro a ha b hb
      rcases hs : (clientStep cfg st op).2 with _ | j
      · rw [hs] at ha; simp at ha
      · rw [hs] at ha; simp at ha
        have h1 := clientStep_alloc cfg st op j hs
        have h2 := runOps_ids_lb cfg ops (clientStep cfg st op).1 b hb
        omega

/-! ## Claim theorems -/

theorem errorContext_classify (params : List Json) (msg : Option String)
    (code data : Option Json) :
    errorContext (classifyRpcError params msg code data) = none := by
  simp only [classifyRpcError]
  split_ifs <;> rfl

/-- Claim C3, counterexample: a server error with message `"boom"`, code
`0` and data `"d"` is classified as a generic error whose code is the
string `"UNKNOWN"`, not the supplied `0` — the claim's "code … equal c …
exactly as supplied (including when c is 0 …)" fails at this input. -/
theorem claim_C3_counterexample :
    classifyRpcError [] (some "boom") (some (Json.num 0)) (some (Json.str "d"))
      = CallResult.megaErr "boom" (Json.str "UNKNOWN") (some (Json.str "d")) ∧
    Json.str "UNKNOWN" ≠ Json.num 0 := by
  decide

/-- Claim C3 as amended: classification is deterministic and checks, in
priority order, "realtime transaction expired" then "mini block not
found"; otherwise the result is a generic error carrying `data` exactly as
supplied, and `code` exactly as supplied only when it is present and
non-falsy — when `code` is `0`, falsy or absent it becomes the string
`"UNKNOWN"`. -/
theorem claim_C3_amended (params : List Json) (m : String) (c d : Option Json)
    (hm : m ≠ "") :
    (strIncludes m "realtime transaction expired" = true →
      classifyRpcError params (some m) c d
        = CallResult.txExpired (headParamOr params (Json.str "unknown"))) ∧
    (strIncludes m "realtime transaction expired" = false →
      strIncludes m "mini block not found" = true →
      classifyRpcError params (some m) c d
        = CallResult.miniBlockNotFound (headParamOr params (Json.num 0))) ∧
    (strIncludes m "realtime transaction expired" = false →
      strIncludes m "mini block not found" = false →
      classifyRpcError params (some m) c d
        = CallResult.megaErr m
            (match c with
             | some cv => if jsFalsy cv then Json.str "UNKNOWN" else cv
             | none => Json.str "UNKNOWN") d) := by
  refine ⟨fun h1 => ?_, fun h1 h2 => ?_, fun h1 h2 => ?_⟩ <;>
    simp [classifyRpcError, hm, h1]
  · simp [h2]
  · simp [h2]

theorem claim_C3_amended_witness :
    classifyRpcError [] (some "boom") (some (Json.num 42)) none
      = CallResult.megaErr "boom" (Json.num 42) none := by
  simpa using
    (claim_C3_amended [] "boom" (some (Json.num 42)) none (by decide)).2.2
      (by decide) (by decide)

/-- Claim C4, counterexample: a failing call whose server error message is
"mini block not found" is classified (`MiniBlockNotFoundError`) and
rethrown by `callRPC`'s catch block without the `rpcMethod`/`rpcParams`
annotation — so not every failing call carries the originating method and
parameter list. -/
theorem claim_C4_counterexample :
    isFailure (callRPC "eth_getBlockByNumber" [Json.str "0xa"]
      (HttpOutcome.rpcError (some "mini block not found") none none)) = true ∧
    errorContext (callRPC "eth_getBlockByNumber" [Json.str "0xa"]
      (HttpOutcome.rpcError (some "mini block not found") none none)) = none := by
  decide

/-- Claim C4 as amended: only transport-level (non-`MegaETHError`)
failures are annotated with the originating `method` and `params`;
classified RPC errors (TransactionExpired, MiniBlockNotFound, GenericRpc)
are rethrown with no such annotation. -/
theorem claim_C4_amended (method : String) (params : List Json) :
    (∀ m, errorContext (callRPC method params (HttpOutcome.transportError m))
        = if method = "" then none else some (method, params)) ∧
    (∀ msg code data,
      errorContext (callRPC method params (HttpOutcome.rpcError msg code data))
        = none) := by
  constructor
  · intro m
    by_cases hm : method = "" <;> simp [callRPC, errorContext, hm]
  · intro msg code data
    by_cases hm : method = ""
    · simp [callRPC, errorContext, hm]
    · simp only [callRPC, if_neg hm]
      exact errorContext_classify params msg code data

/-- Claim C1: `resubscribeAll` does re-issue `subscribe` with the original
`eventType`/`params`, but the re-established subscription's callback is
the fresh no-op installed by `subscribe` — the original callback
(`Callback.user 7`) is discarded, so a notification referencing the new
server id `"srv2"` is delivered to the no-op, not to the original
callback. -/
theorem claim_C1_evidence :
    c1st1.subs = [("sub_new",
      { id := "srv2", eventType := "newHeads", params := Json.null,
        callback := Callback.noop })] ∧
    handleNotification c1st1 "srv2" = some Callback.noop ∧
    handleNotification c1st0 "srv1" = some (Callback.user 7) ∧
    Callback.noop ≠ Callback.user 7 := by
  decide

/-- Claim C2: the call does fail with the subscription-timeout rejection,
and at that point the table is unchanged; but the `messageHandler` is
still registered, so the matching response arriving after the timeout
inserts an orphaned entry into the subscription table instead of being
ignored. -/
theorem claim_C2_evidence :
    (timeoutFire c2s1 1).2 = true ∧
    c2s2.subs = [] ∧
    c2s3.subs = [("sub_A",
      { id := "0xserver", eventType := "newHeads", params := Json.null,
        callback := Callback.noop })] ∧
    c2s3.pending = [] := by
  decide

/-- Claim C5 as amended: when the registry has reached the configured
maximum, `subscribe` fails immediately with the limit error, leaves the
state unchanged and performs no network activity (no connect, no send).
The check happens only at call time, so responses to subscribe requests
already in flight can still push the live count past the maximum (see the
counterexample). -/
theorem claim_C5_amended (cfg : Config) (st : ClientState) (et : String)
    (p : Json) (fh : String) (ok : Bool)
    (hws : cfg.wsConfigured = true) (hlim : effMax cfg ≤ st.subs.length) :
    subscribeStart cfg st et p fh ok
      = (st, SubStartRes.limitHit (effMax cfg), []) := by
  unfold subscribeStart
  rw [if_neg (by simp [hws]), if_pos hlim]

theorem claim_C5_amended_witness :
    subscribeStart c5wCfg c5wSt "newHeads" Json.null "sub_a" true
      = (c5wSt, SubStartRes.limitHit 1, []) := by
  simpa using
    claim_C5_amended c5wCfg c5wSt "newHeads" Json.null "sub_a" true rfl (by decide)

/-- Claim C5, counterexample: with `maxSubscriptions = 1`, two overlapping
`subscribe` calls each pass the at-call-time limit check, and after both
responses arrive the table holds 2 live entries — the claimed invariant
"the number of live subscription entries never exceeds the configured
maximum" fails. -/
theorem claim_C5_counterexample :
    effMax c5cfg = 1 ∧
    (subscribeStart c5cfg { subs := [], pending := [], requestId := 1 }
      "newHeads" Json.null "sub_a" true).2.1 = SubStartRes.started 1 "sub_a" ∧
    (subscribeStart c5cfg c5s1 "logs" Json.null "sub_b" true).2.1
      = SubStartRes.started 2 "sub_b" ∧
    c5s4.subs.length = 2 := by
  decide

/-- Claim C6: below the maximum, `handleReconnection` increments the
attempt counter and schedules the next attempt after
`reconnectDelay * 2 ^ (attempt - 1)` (so from a fresh counter the delays
are `base, 2*base, 4*base, 8*base, 16*base`); once the counter has reached
the maximum it emits the terminal exhausted event and schedules nothing. -/
theorem claim_C6 (ws : WsState) :
    (ws.reconnectAttempts < maxReconnectAttempts →
      handleReconnection ws =
        ({ ws with reconnectAttempts := ws.reconnectAttempts + 1 },
         ReconnectAction.scheduled (reconnectDelay * 2 ^ ws.reconnectAttempts))) ∧
    (maxReconnectAttempts ≤ ws.reconnectAttempts →
      handleReconnection ws = (ws, ReconnectAction.exhausted)) ∧
    (ws.reconnectAttempts = 0 →
      reconnectDelaySeq ws maxReconnectAttempts =
        [reconnectDelay, 2 * reconnectDelay, 4 * reconnectDelay,
         8 * reconnectDelay, 16 * reconnectDelay]) := by
  refine ⟨fun h => ?_, fun h => ?_, fun h => ?_⟩
  · unfold handleReconnection
    rw [if_neg (not_le.mpr h)]
    simp
  · unfold handleReconnection
    rw [if_pos h]
  · obtain ⟨co, ic, ra⟩ := ws
    simp only [WsState.reconnectAttempts] at h
    subst h
    revert co ic
    decide

theorem claim_C6_witness :
    handleReconnection { connOpen := false, isConnecting := false, reconnectAttempts := 0 } =
      ({ connOpen := false, isConnecting := false, reconnectAttempts := 1 },
       ReconnectAction.scheduled 1000) := by
  simpa using
    (claim_C6 { connOpen := false, isConnecting := false, reconnectAttempts := 0 }).1
      (by decide)

/-- Claim C7: `unsubscribe` on an unknown handle, or with no connection
manager configured, returns `false` and changes nothing; on a known handle
with a manager and a successful (unawaited) send it emits the
`eth_unsubscribe` envelope, removes the mapping immediately and returns
`true`. -/
theorem claim_C7 (cfg : Config) (st : ClientState) (h : String) :
    (getAssoc st.subs h = none → ∀ s, unsubscribe cfg st h s = (st, false, [])) ∧
    (cfg.wsConfigured = false → ∀ s, unsubscribe cfg st h s = (st, false, [])) ∧
    (∀ sub, getAssoc st.subs h = some sub → cfg.wsConfigured = true →
      unsubscribe cfg st h true =
        ({ st with requestId := st.requestId + 1, subs := delAssoc st.subs h },
         true,
         [NetEvent.send (mkUnsubPayload st.requestId sub.id)])) := by
  refine ⟨fun h0 s => ?_, fun hw s => ?_, fun sub hsub hw => ?_⟩
  · simp [unsubscribe, h0]
  · rcases hg : getAssoc st.subs h with _ | sub <;> simp [unsubscribe, hg, hw]
  · simp [unsubscribe, hsub, hw, mkUnsubPayload]

theorem claim_C7_witness :
    unsubscribe c7wCfg c7wSt "hX" true
      = ({ subs := [], pending := [], requestId := 4 }, true,
         [NetEvent.send (mkUnsubPayload 3 "sX")]) := by
  simpa using (claim_C7 c7wCfg c7wSt "hX").2.2 c7wSub (by decide) rfl

/-- Claim C10: on a known handle with a manager configured, when the
`send` of the unsubscribe envelope throws, `unsubscribe` returns `false`
and the subscription table is unchanged (only the request-id counter was
consumed by building the payload). -/
theorem claim_C10 (cfg : Config) (st : ClientState) (h : String)
    (sub : Subscription) (hsub : getAssoc st.subs h = some sub)
    (hws : cfg.wsConfigured = true) :
    unsubscribe cfg st h false
      = ({ st with requestId := st.requestId + 1 }, false, []) ∧
    (unsubscribe cfg st h false).1.subs = st.subs ∧
    getAssoc (unsubscribe cfg st h false).1.subs h = some sub := by
  have he : unsubscribe cfg st h false
      = ({ st with requestId := st.requestId + 1 }, false, []) := by
    simp [unsubscribe, hsub, hws]
  exact ⟨he, by rw [he], by rw [he]; exact hsub⟩

theorem claim_C10_witness :
    unsubscribe c7wCfg { subs := [("hY", c7wSub)], pending := [], requestId := 3 } "hY" false
      = ({ subs := [("hY", c7wSub)], pending := [], requestId := 4 }, false, []) := by
  simpa using
    (claim_C10 c7wCfg { subs := [("hY", c7wSub)], pending := [], requestId := 3 }
      "hY" c7wSub (by decide) rfl).1

theorem connectBurst_open (ws : WsState) (n : Nat) (h : ws.connOpen = true) :
    connectBurst ws n = (ws, 0) := by
  induction n with
  | zero => rfl
  | succ n ih => simp [connectBurst, connectStep, h, ih]

theorem connectBurst_waiting (ws : WsState) (n : Nat)
    (h1 : ws.connOpen = false) (h2 : ws.isConnecting = true) :
    (connectBurst ws n).2 = 0 := by
  induction n with
  | zero => rfl
  | succ n ih => simp [connectBurst, connectStep, h1, h2, ih]

/-- Claim C9: `connect()` calls arriving while the socket is already open
return immediately with no new socket; calls arriving while an attempt is
in flight open no socket (they wait on the attempt); a burst of `n ≥ 1`
calls from the disconnected state performs exactly one underlying
socket-open; and every waiter polling the settled manager state observes
the one attempt's outcome — they all resolve, or all fail, together. -/
theorem claim_C9 :
    (∀ (ws : WsState) (n : Nat), ws.connOpen = true →
      connectBurst ws n = (ws, 0)) ∧
    (∀ (ws : WsState) (n : Nat), ws.connOpen = false → ws.isConnecting = true →
      (connectBurst ws n).2 = 0) ∧
    (∀ (ws : WsState) (n : Nat), ws.connOpen = false → ws.isConnecting = false →
      1 ≤ n → (connectBurst ws n).2 = 1) ∧
    (∀ (ws : WsState) (success : Bool),
      waiterOutcome (attemptSettle ws success) = some success) := by
  refine ⟨fun ws n h => connectBurst_open ws n h,
          fun ws n h1 h2 => connectBurst_waiting ws n h1 h2,
          fun ws n h1 h2 hn => ?_, fun ws success => ?_⟩
  · rcases n with _ | m
    · omega
    · have hstep : connectStep ws
          = ({ ws with isConnecting := true }, ConnectAction.openSocket) := by
        simp [connectStep, h1, h2]
      have hrest := connectBurst_waiting { ws with isConnecting := true } m
        (by simpa using h1) (by simp)
      simp [connectBurst, hstep, hrest]
  · cases success <;> simp [attemptSettle, waiterOutcome]

theorem claim_C9_witness :
    (connectBurst (WsState.mk false false 0) 3).2 = 1 :=
  claim_C9.2.2.1 (WsState.mk false false 0) 3 rfl rfl (by decide)

theorem unsubscribe_pending (cfg : Config) (st : ClientState)
    (h : String) (s : Bool) :
    (unsubscribe cfg st h s).1.pending = st.pending := by
  rcases hg : getAssoc st.subs h with _ | sub
  · simp [unsubscribe, hg]
  · by_cases hw : cfg.wsConfigured <;> cases s <;> simp [unsubscribe, hg, hw]

/-- Claim C8, counterexample: a `subscribe` call sends a request
(allocating id 1) and, besides bumping the counter, registers its
`messageHandler` on the connection manager's event bus — shared client
state that is neither the id counter nor the subscription table (which is
unchanged here).  So not every request-sending operation confines its
mutations to the counter and the subscription table. -/
theorem claim_C8_counterexample :
    (clientStep { wsConfigured := true, megaethMaxSubscriptions := none }
      { subs := [], pending := [], requestId := 1 }
      (ClientOp.subStart "newHeads" Json.null "sub_a" true)).2 = some 1 ∧
    (clientStep { wsConfigured := true, megaethMaxSubscriptions := none }
      { subs := [], pending := [], requestId := 1 }
      (ClientOp.subStart "newHeads" Json.null "sub_a" true)).1.pending ≠ [] ∧
    (clientStep { wsConfigured := true, megaethMaxSubscriptions := none }
      { subs := [], pending := [], requestId := 1 }
      (ClientOp.subStart "newHeads" Json.null "sub_a" true)).1.subs = [] := by
  decide

/-- Claim C8 as amended: over every interleaving of client operations the
allocated request ids are pairwise distinct and strictly increasing in
allocation order (the counter is monotonic); `callRPC` mutates neither the
subscription table nor the registered handlers, and `unsubscribe` mutates
only the counter and the subscription table — but `subscribe` additionally
registers a message handler on the connection manager, so request-sending
operations are not confined to the counter and the table. -/
theorem claim_C8_amended (cfg : Config) :
    (∀ (st : ClientState) (ops : List ClientOp),
      List.Pairwise (fun a b => a < b) (runOps cfg st ops).2) ∧
    (∀ (st : ClientState) (m : String) (p : List Json) (o : HttpOutcome),
      (clientStep cfg st (ClientOp.rpc m p o)).1.subs = st.subs ∧
      (clientStep cfg st (ClientOp.rpc m p o)).1.pending = st.pending) ∧
    (∀ (st : ClientState) (h : String) (s : Bool),
      (clientStep cfg st (ClientOp.unsub h s)).1.pending = st.pending) := by
  refine ⟨fun st ops => runOps_ids_pairwise cfg ops st, fun st m p o => ?_,
          fun st h s => ?_⟩
  · by_cases hm : m = "" <;> simp [clientStep, hm]
  · simp [clientStep, unsubscribe_pending]
